import Mathlib

/-!
Verification of the rotary-cutter simulation engine (modelo_sistema_de_corte).

This file gives a shallow embedding, over exact arithmetic, of the parts of the
repository that the claims concern:

* `src/orc/core/physics.py`     — inertia, torque components, ODE right-hand side
* `src/orc/core/validation.py`  — parameter validation, torque-strategy validation
* `src/orc/core/simulation.py`  — `SimulationEngine.run_simulation` control flow
* `src/orc/analysis/metrics.py` — `PerformanceAnalyzer.analyze` and stability indices
* `main_model.py`               — `rotary_cutter_system`, `simulate_advanced_configuration`,
                                  `compute_metrics`, `validate_params`

Python floats are modelled as `ℚ` wherever the theorems must evaluate on
concrete inputs, and as `ℝ` in the analyzer module, where `np.std`/`np.sqrt`
require square roots.  Dictionaries with optional keys are modelled as
structures with `Option` fields (`none` = key absent); a dict access
`params[k]` that would raise `KeyError` is modelled with `Option`/`Except`.
The external adaptive solver `scipy.integrate.solve_ivp` is abstracted by the
`SolveIvp` outcome type: the repository only inspects its success flag, its
sampled solution arrays and its diagnostic message.
-/

/-- Embeds `np.sign` (`physics.py` line 135, `main_model.py` line 83):
`1` for positive, `-1` for negative, `0` at zero. -/
def qSign (x : ℚ) : ℚ := if 0 < x then 1 else if x < 0 then -1 else 0

/-- Embeds `np.clip(a, lo, hi)`: `min (max a lo) hi`. -/
def npClip (a lo hi : ℚ) : ℚ := min (max a lo) hi

/-- Embeds `np.mean` of a 1-d array (`main_model.py` line 290).  On an empty
array numpy returns NaN; here `0/0 = 0`; the theorems about the mean assume a
nonempty array. -/
def npMean (l : List ℚ) : ℚ := l.sum / l.length

/-- Embeds `np.max` of a 1-d array, which raises
`ValueError: zero-size array ...` on an empty array. -/
def npMax {α : Type} [LinearOrder α] (l : List α) : Except String α :=
  match l with
  | [] => .error "zero-size array to reduction operation maximum which has no identity"
  | x :: xs => .ok (xs.foldl max x)

/-- Embeds `np.min` of a 1-d array, which raises on an empty array. -/
def npMin {α : Type} [LinearOrder α] (l : List α) : Except String α :=
  match l with
  | [] => .error "zero-size array to reduction operation minimum which has no identity"
  | x :: xs => .ok (xs.foldl min x)

/-- Embeds the indexing `a[-1]` on a numpy array, which raises `IndexError`
on an empty array. -/
def npLast {α : Type} (l : List α) : Except String α :=
  match l.getLast? with
  | none => .error "index -1 is out of bounds for axis 0 with size 0"
  | some x => .ok x

/-- Embeds the indexing `a[0]` on a numpy array, which raises `IndexError`
on an empty array. -/
def npFirst {α : Type} (l : List α) : Except String α :=
  match l with
  | [] => .error "index 0 is out of bounds for axis 0 with size 0"
  | x :: _ => .ok x

/-- Embeds `np.trapezoid(y, x)` / `np.trapz(y, x)`: the trapezoidal rule
`Σ (y_i + y_{i+1})/2 · (x_{i+1} - x_i)` over consecutive samples.
First argument is the abscissa `x`, second the ordinate `y`. -/
def trapz : List ℚ → List ℚ → ℚ
  | x0 :: x1 :: xs, y0 :: y1 :: ys => (y0 + y1) / 2 * (x1 - x0) + trapz (x1 :: xs) (y1 :: ys)
  | _, _ => 0

/-- Embeds `np.sum(c * (omega[:-1] + omega[1:]) / 2 * np.diff(t))`
(`main_model.py` lines 231-246 with the constant factor `c`):
the midpoint-in-`ω`, constant-in-`c` energy sum used for `E_total`
(`c = tau_input`) and for the constant-vegetation `E_util` (`c = tau_grass`). -/
def sumMidDt (c : ℚ) : List ℚ → List ℚ → ℚ
  | t0 :: t1 :: ts, w0 :: w1 :: ws =>
      c * ((w0 + w1) / 2) * (t1 - t0) + sumMidDt c (t1 :: ts) (w1 :: ws)
  | _, _ => 0

/-- Embeds `np.sum(tau_grass_values * (omega[:-1] + omega[1:]) / 2 * np.diff(t))`
with `tau_grass_values = [f(t_i) for t_i in t[:-1]]`
(`main_model.py` lines 249-258): the strategy is sampled at the LEFT endpoint
of each interval while `ω` is averaged over the interval. -/
def sumLeftSampled (f : ℚ → ℚ) : List ℚ → List ℚ → ℚ
  | t0 :: t1 :: ts, w0 :: w1 :: ws =>
      f t0 * ((w0 + w1) / 2) * (t1 - t0) + sumLeftSampled f (t1 :: ts) (w1 :: ws)
  | _, _ => 0

/-- Embeds `np.linspace(a, b, n)`: `n` evenly spaced samples from `a` to `b`
inclusive (`simulation.py` line 161, `main_model.py` line 132). -/
def linspace (a b : ℚ) (n : ℕ) : List ℚ :=
  (List.range n).map fun i : ℕ => a + (b - a) * (i : ℚ) / ((n - 1 : ℕ) : ℚ)

/-- The value domain of a Python float as seen by the validator checks:
a finite rational, NaN, `+inf` or `-inf`. -/
inductive FVal where
  | fin (q : ℚ)
  | nan
  | pinf
  | ninf
deriving DecidableEq

/-- IEEE-754 semantics of the Python comparison `v < 0` used at
`validation.py` line 336: false on NaN, false on `+inf`, true on `-inf`. -/
def FVal.lt0 : FVal → Bool
  | .fin q => decide (q < 0)
  | .nan => false
  | .pinf => false
  | .ninf => true

/-- IEEE-754 semantics of the Python comparison `v > M` (for a finite bound
`M`) used at `validation.py` line 340: false on NaN, true on `+inf`,
false on `-inf`. -/
def FVal.gtBound (M : ℚ) : FVal → Bool
  | .fin q => decide (M < q)
  | .nan => false
  | .pinf => true
  | .ninf => false

/-- Finiteness of a float value: true exactly on finite rationals. -/
def FVal.isFinite : FVal → Bool
  | .fin _ => true
  | _ => false

/-- Outcome of calling a user-supplied torque strategy at one time point:
it can return a numeric float, return a non-numeric object, or raise. -/
inductive PyRet where
  | num (v : FVal)
  | nonnum
  | raises (msg : String)

/-- The parameter dictionary handed to validation: `none` models an absent
key.  Strategies are rational-valued here; `validateTorqueFunction` below
models the same validator over the full float/exception domain. -/
structure ParamDict where
  I_plate : Option ℚ
  m_c : Option ℚ
  R : Option ℚ
  L : Option ℚ
  tau_input : Option ℚ
  b : Option ℚ
  c_drag : Option ℚ
  rho_veg : Option ℚ
  k_grass : Option ℚ
  v_avance : Option ℚ
  n_blades : Option ℤ := none
  w : Option ℚ := none
  tau_grass_func : Option (ℚ → ℚ) := none

/-- A parameter set whose ten required keys are all present (the view of the
dictionary used by the physics and metrics code after validation). -/
structure Params where
  I_plate : ℚ
  m_c : ℚ
  R : ℚ
  L : ℚ
  tau_input : ℚ
  b : ℚ
  c_drag : ℚ
  rho_veg : ℚ
  k_grass : ℚ
  v_avance : ℚ
  n_blades : Option ℤ := none
  w : Option ℚ := none
  tau_grass_func : Option (ℚ → ℚ) := none

/-- Reads the ten required keys out of a dictionary (`none` when one is
missing), carrying the optional keys through. -/
def toParams (d : ParamDict) : Option Params := do
  let I_plate ← d.I_plate
  let m_c ← d.m_c
  let R ← d.R
  let L ← d.L
  let tau_input ← d.tau_input
  let b ← d.b
  let c_drag ← d.c_drag
  let rho_veg ← d.rho_veg
  let k_grass ← d.k_grass
  let v_avance ← d.v_avance
  some { I_plate, m_c, R, L, tau_input, b, c_drag, rho_veg, k_grass, v_avance,
         n_blades := d.n_blades, w := d.w, tau_grass_func := d.tau_grass_func }

/-- Embeds `RotaryCutterPhysics.calculate_total_moment_of_inertia`
(`physics.py` lines 93-113): `I_plate + n_blades * m_c * (R + L)**2`,
with `params.get('n_blades', 2)` — so 2 when the key is absent.  Access to
the required keys `I_plate`, `m_c`, `R`, `L` raises `KeyError` when missing,
modelled by `none`. -/
def inertiaOfDict (d : ParamDict) : Option ℚ := do
  let I_plate ← d.I_plate
  let n_blades := d.n_blades.getD 2
  let m_c ← d.m_c
  let R ← d.R
  let L ← d.L
  some (I_plate + (n_blades : ℚ) * m_c * (R + L) ^ 2)

/-- The four torque contributions and their net sum
(`physics.py` lines 146-152). -/
structure TorqueComponents where
  input : ℚ
  friction : ℚ
  drag : ℚ
  grass : ℚ
  net : ℚ
deriving DecidableEq

/-- Embeds `RotaryCutterPhysics.calculate_torque_components`
(`physics.py` lines 115-152) on a parameter set with the required keys
present.  A pure function of `(t, ω, params)`:
input torque `tau_input`; viscous friction `b·ω`; aerodynamic drag
`c_drag·ω²·sign(ω)`; vegetation torque `tau_grass_func(t)` when a strategy is
supplied, else the constant `k_grass·rho_veg·v_avance·R`;
net `= input - friction - drag - grass`. -/
def calculateTorqueComponents (t ω : ℚ) (p : Params) : TorqueComponents :=
  let tau_input := p.tau_input
  let tau_friction := p.b * ω
  let tau_drag := p.c_drag * ω ^ 2 * qSign ω
  let tau_grass :=
    match p.tau_grass_func with
    | some f => f t
    | none => p.k_grass * p.rho_veg * p.v_avance * p.R
  { input := tau_input, friction := tau_friction, drag := tau_drag, grass := tau_grass,
    net := tau_input - tau_friction - tau_drag - tau_grass }

/-- The net torque computed from the raw dictionary, as the simulation loop
does (`simulation.py` lines 244-254 via `calculate_torque_components`,
and identically inline at `main_model.py` lines 158-168); `none` models the
`KeyError` on a missing required key. -/
def netTorqueOfDict (d : ParamDict) (t ω : ℚ) : Option ℚ := do
  let tau_input ← d.tau_input
  let b ← d.b
  let c_drag ← d.c_drag
  let grass ←
    match d.tau_grass_func with
    | some f => some (f t)
    | none => do
        let k_grass ← d.k_grass
        let rho_veg ← d.rho_veg
        let v_avance ← d.v_avance
        let R ← d.R
        some (k_grass * rho_veg * v_avance * R)
  some (tau_input - b * ω - c_drag * ω ^ 2 * qSign ω - grass)

/-- Embeds `RotaryCutterPhysics.differential_equation_system`
(`physics.py` lines 57-91): `dθ/dt = ω`, `dω/dt = net_torque / I_total`. -/
def differentialEquationSystem (t : ℚ) (y : ℚ × ℚ) (d : ParamDict) : Option (ℚ × ℚ) := do
  let I_total ← inertiaOfDict d
  let net ← netTorqueOfDict d t y.2
  some (y.2, net / I_total)

/-- Embeds `ParameterValidator._check_required_parameters`
(`validation.py` lines 130-142): the ten required keys; note that
`n_blades` is NOT in the required list. -/
def checkRequired (d : ParamDict) : Except String Unit :=
  if d.I_plate.isSome ∧ d.m_c.isSome ∧ d.R.isSome ∧ d.L.isSome ∧ d.tau_input.isSome ∧
     d.b.isSome ∧ d.c_drag.isSome ∧ d.rho_veg.isSome ∧ d.k_grass.isSome ∧ d.v_avance.isSome
  then .ok () else .error "Missing required parameters"

/-- Embeds `ParameterValidator._validate_geometric_parameters`
(`validation.py` lines 144-181), with the default limits
`MIN_RADIUS = 0.01`, `MAX_RADIUS = 5`, `MAX_LENGTH_RATIO = 2`,
`MIN_WIDTH = 0.1`, `MAX_WIDTH = 10`.  A missing key raises `KeyError`. -/
def checkGeometric (d : ParamDict) : Except String Unit :=
  match d.R with
  | none => .error "KeyError: R"
  | some R =>
    if R ≤ 0 then .error "Radius must be positive"
    else if R < 1/100 ∨ 5 < R then .error "Radius outside valid range"
    else
      match d.L with
      | none => .error "KeyError: L"
      | some L =>
        if L < 0 then .error "Length must be non-negative"
        else if 2 * R < L then .error "Length too large relative to radius"
        else
          match d.w with
          | none => .ok ()
          | some w =>
            if w ≤ 0 then .error "Width must be positive"
            else if w < 1/10 ∨ 10 < w then .error "Width outside valid range"
            else .ok ()

/-- Embeds `ParameterValidator._validate_mass_parameters`
(`validation.py` lines 183-208), limits `MIN_INERTIA = 1e-6`,
`MAX_INERTIA = 1000`, `MIN_MASS = 0.1`, `MAX_MASS = 1000`. -/
def checkMass (d : ParamDict) : Except String Unit :=
  match d.I_plate with
  | none => .error "KeyError: I_plate"
  | some I_plate =>
    if I_plate ≤ 0 then .error "Plate moment of inertia must be positive"
    else if I_plate < 1/1000000 ∨ 1000 < I_plate then .error "Plate inertia outside valid range"
    else
      match d.m_c with
      | none => .error "KeyError: m_c"
      | some m_c =>
        if m_c ≤ 0 then .error "Blade mass must be positive"
        else if m_c < 1/10 ∨ 1000 < m_c then .error "Blade mass outside valid range"
        else .ok ()

/-- Embeds `ParameterValidator._validate_torque_parameters`
(`validation.py` lines 210-222), limits `MIN_TORQUE = 0.1`,
`MAX_TORQUE = 10000`. -/
def checkTorqueParams (d : ParamDict) : Except String Unit :=
  match d.tau_input with
  | none => .error "KeyError: tau_input"
  | some tau_input =>
    if tau_input ≤ 0 then .error "Input torque must be positive"
    else if tau_input < 1/10 ∨ 10000 < tau_input then .error "Input torque outside valid range"
    else .ok ()

/-- Embeds `ParameterValidator._validate_resistance_parameters`
(`validation.py` lines 224-249), limits `MAX_FRICTION = 100`,
`MAX_DRAG = 10`. -/
def checkResistance (d : ParamDict) : Except String Unit :=
  match d.b with
  | none => .error "KeyError: b"
  | some b =>
    if b < 0 then .error "Viscous friction must be non-negative"
    else if 100 < b then .error "Viscous friction exceeds maximum"
    else
      match d.c_drag with
      | none => .error "KeyError: c_drag"
      | some c_drag =>
        if c_drag < 0 then .error "Drag coefficient must be non-negative"
        else if 10 < c_drag then .error "Drag coefficient exceeds maximum"
        else .ok ()

/-- Embeds `ParameterValidator._validate_vegetation_parameters`
(`validation.py` lines 251-290), limits `MAX_DENSITY = 10`,
`MAX_RESISTANCE = 1000`, `MAX_LINEAR_VELOCITY = 20`. -/
def checkVegetation (d : ParamDict) : Except String Unit :=
  match d.rho_veg with
  | none => .error "KeyError: rho_veg"
  | some rho_veg =>
    if rho_veg < 0 then .error "Vegetation density must be non-negative"
    else if 10 < rho_veg then .error "Vegetation density exceeds maximum"
    else
      match d.k_grass with
      | none => .error "KeyError: k_grass"
      | some k_grass =>
        if k_grass < 0 then .error "Grass resistance must be non-negative"
        else if 1000 < k_grass then .error "Grass resistance exceeds maximum"
        else
          match d.v_avance with
          | none => .error "KeyError: v_avance"
          | some v_avance =>
            if v_avance < 0 then .error "Advance velocity must be non-negative"
            else if 20 < v_avance then .error "Advance velocity exceeds maximum"
            else .ok ()

/-- Embeds `ParameterValidator._validate_blade_parameters`
(`validation.py` lines 292-305): `n_blades` is validated ONLY when present,
to an integer in `[MIN_BLADES, MAX_BLADES] = [1, 12]`. -/
def checkBlades (d : ParamDict) : Except String Unit :=
  match d.n_blades with
  | none => .ok ()
  | some n =>
    if n < 1 then .error "Number of blades must be integer at least 1"
    else if 12 < n then .error "Number of blades exceeds maximum"
    else .ok ()

/-- Embeds `ParameterValidator._validate_parameter_consistency`
(`validation.py` lines 307-320): it only emits a logger warning and never
raises, so it is a no-op for control flow. -/
def checkConsistency (_d : ParamDict) : Except String Unit := .ok ()

/-- Embeds the per-sample loop of `ParameterValidator._validate_torque_function`
(`validation.py` lines 327-348) and of the strategy check of
`validate_params` (`main_model.py` lines 434-449) on a rational-valued
strategy: `result < 0` and `result > bound` at each sampled time in order
(`bound = 10000` in `validation.py`, `bound = 1000` in `main_model.py`). -/
def checkTorqueFuncQ (bound : ℚ) (f : ℚ → ℚ) : List ℚ → Except String Unit
  | [] => .ok ()
  | t :: ts =>
    if f t < 0 then .error "Torque function returned negative value"
    else if bound < f t then .error "Torque function returned excessive value"
    else checkTorqueFuncQ bound f ts

/-- Embeds `ParameterValidator.validate_parameters`
(`validation.py` lines 102-128): the checks run in source order and the first
failure raises `ValidationError`; the torque strategy, when present, is
sampled at the representative times `[0, 1, 5, 10]`. -/
def validateParameters (d : ParamDict) : Except String Unit := do
  checkRequired d
  checkGeometric d
  checkMass d
  checkTorqueParams d
  checkResistance d
  checkVegetation d
  checkBlades d
  checkConsistency d
  match d.tau_grass_func with
  | none => .ok ()
  | some f => checkTorqueFuncQ 10000 f [0, 1, 5, 10]

/-- Embeds the per-sample body of `ParameterValidator._validate_torque_function`
(`validation.py` lines 329-348) over the full Python float/exception domain:
an exception raised by the strategy is re-raised as a `ValidationError`; a
non-numeric return fails `isinstance(result, (int, float))`; a numeric return
fails on `result < 0` or `result > MAX_TORQUE = 10000`, with IEEE comparison
semantics (`FVal.lt0`, `FVal.gtBound`) on non-finite values. -/
def checkTorqueValue (r : PyRet) : Except String Unit :=
  match r with
  | .raises msg => .error ("Error evaluating torque function: " ++ msg)
  | .nonnum => .error "Torque function must return numeric value"
  | .num v =>
    if v.lt0 then .error "Torque function returned negative value"
    else if v.gtBound 10000 then .error "Torque function returned excessive value"
    else .ok ()

/-- The fixed representative sample times `test_times = [0.0, 1.0, 5.0, 10.0]`
of `validation.py` line 328. -/
def torqueTestTimes : List ℚ := [0, 1, 5, 10]

/-- Embeds `ParameterValidator._validate_torque_function`
(`validation.py` lines 322-348) over the float/exception domain: the strategy
is sampled at `torqueTestTimes` and the first failing sample raises. -/
def validateTorqueFunctionAux (f : ℚ → PyRet) : List ℚ → Except String Unit
  | [] => .ok ()
  | t :: ts => do
    checkTorqueValue (f t)
    validateTorqueFunctionAux f ts

/-- `_validate_torque_function` applied to its fixed sample times. -/
def validateTorqueFunction (f : ℚ → PyRet) : Except String Unit :=
  validateTorqueFunctionAux f torqueTestTimes

/-- Embeds `validate_params` (`main_model.py` lines 345-449): all ten required
parameters must be present and STRICTLY positive; `n_blades` optional in
1..12; `w` optional, positive and at most 10; coherence checks
`L ≤ 2 R`, `I_plate ≤ 10 m_c R²`, `v_avance ≤ 20`, `tau_input ≤ 10000`;
a strategy, when present, is sampled at `[0, 1, 5]` against the bound 1000. -/
def validateParamsMain (d : ParamDict) : Except String Unit := do
  if d.I_plate.isSome ∧ d.m_c.isSome ∧ d.R.isSome ∧ d.L.isSome ∧ d.tau_input.isSome ∧
     d.b.isSome ∧ d.c_drag.isSome ∧ d.rho_veg.isSome ∧ d.k_grass.isSome ∧ d.v_avance.isSome
  then .ok () else .error "Parametros faltantes"
  if 0 < d.I_plate.getD 0 ∧ 0 < d.m_c.getD 0 ∧ 0 < d.R.getD 0 ∧ 0 < d.L.getD 0 ∧
     0 < d.tau_input.getD 0 ∧ 0 < d.b.getD 0 ∧ 0 < d.c_drag.getD 0 ∧ 0 < d.rho_veg.getD 0 ∧
     0 < d.k_grass.getD 0 ∧ 0 < d.v_avance.getD 0
  then .ok () else .error "Los siguientes parametros deben ser numeros positivos"
  match d.n_blades with
  | none => .ok ()
  | some n =>
    if n < 1 then .error "Numero de cuchillas debe ser un entero mayor o igual a 1"
    else if 12 < n then .error "Numero de cuchillas excesivo"
    else .ok ()
  match d.w with
  | none => .ok ()
  | some w =>
    if w ≤ 0 then .error "Ancho de corte debe ser positivo"
    else if 10 < w then .error "Ancho de corte excesivo"
    else .ok ()
  if 2 * d.R.getD 0 < d.L.getD 0 then .error "Longitud de cuchilla excesiva"
  else .ok ()
  if 10 * (d.m_c.getD 0 * (d.R.getD 0) ^ 2) < d.I_plate.getD 0 then
    .error "Momento de inercia del plato parece excesivo"
  else .ok ()
  if 20 < d.v_avance.getD 0 then .error "Velocidad de avance excesiva" else .ok ()
  if 10000 < d.tau_input.getD 0 then .error "Torque del motor excesivo" else .ok ()
  match d.tau_grass_func with
  | none => .ok ()
  | some f => checkTorqueFuncQ 1000 f [0, 1, 5]

/-- Embeds `SimulationConfig` (`simulation.py` lines 37-58); the integration
method enum and output options do not affect the embedded control flow. -/
structure SimulationConfig where
  t_start : ℚ := 0
  t_end : ℚ := 10
  n_points : ℕ := 1000
  rtol : ℚ := 1/100000000
  atol : ℚ := 1/10000000000
  max_step : Option ℚ := none
  initial_angle : ℚ := 0
  initial_angular_velocity : ℚ := 0

/-- Embeds `SimulationEngine._validate_config` (`simulation.py` lines
275-287). -/
def validateConfig (c : SimulationConfig) : Except String Unit :=
  if c.t_end ≤ c.t_start then .error "End time must be greater than start time"
  else if c.n_points < 10 then .error "Number of points must be at least 10"
  else if c.rtol ≤ 0 ∨ c.atol ≤ 0 then .error "Tolerances must be positive"
  else
    match c.max_step with
    | some m => if m ≤ 0 then .error "Maximum step size must be positive" else .ok ()
    | none => .ok ()

/-- Modelled from the spec: the outcome of the external adaptive solver
`scipy.integrate.solve_ivp` (spec §4.3, §7 — "explicit adaptive-step
Runge-Kutta ... if the solver cannot satisfy tolerances within its internal
step/evaluation budget, the run is marked failed").  The repository inspects
only `sol.success`, the solution rows `sol.y[0]`, `sol.y[1]` sampled at
`t_eval` (`sol.t = t_eval` on success), `sol.nfev` and `sol.message`; those
are the constructor fields. -/
inductive SolveIvp where
  | solOk (theta omega : List ℚ) (nfev : ℕ)
  | fail (message : String)

/-- Embeds `SimulationResult` (`simulation.py` lines 61-106).  The wall-clock
`execution_time` and the sqrt-based `statistics` dict are outside the exact
arithmetic domain and are not modelled; no claim concerns them. -/
structure SimulationResult where
  time : List ℚ
  angle : List ℚ
  angular_velocity : List ℚ
  torque : List ℚ
  power : List ℚ
  kinetic_energy : List ℚ
  success : Bool
  message : String
  n_evaluations : ℕ

/-- The failed `SimulationResult` built in the `except` branch of
`run_simulation` (`simulation.py` lines 228-242): empty arrays, `success =
False`, message `str(e)`. -/
def failedResult (msg : String) : SimulationResult :=
  { time := [], angle := [], angular_velocity := [], torque := [], power := [],
    kinetic_energy := [], success := false, message := msg, n_evaluations := 0 }

/-- Embeds `SimulationEngine._calculate_torque_time_series`
(`simulation.py` lines 244-254): the net torque at each `(t_i, ω_i)`;
`none` models a `KeyError` escaping from the parameter dictionary. -/
def torqueSeries (d : ParamDict) (ts ωs : List ℚ) : Option (List ℚ) :=
  (ts.zip ωs).mapM fun q => netTorqueOfDict d q.1 q.2

/-- Embeds `SimulationEngine.run_simulation` (`simulation.py` lines 131-242).
Validation runs BEFORE the `try` block, so a `ValidationError` propagates to
the caller (`Except.error`).  Everything inside the `try` — the solver and the
derived-series post-processing — is caught by the `except` branch and
surfaced as a failed `SimulationResult`; a solver failure raises
`RuntimeError("Integration failed: " + sol.message)` inside the `try`, so the
failed result carries that message. -/
def runSimulation (d : ParamDict) (cfg : SimulationConfig) (sol : SolveIvp) :
    Except String SimulationResult := do
  validateParameters d
  validateConfig cfg
  let t_eval := linspace cfg.t_start cfg.t_end cfg.n_points
  match sol with
  | .fail msg => .ok (failedResult ("Integration failed: " ++ msg))
  | .solOk θs ωs nfev =>
    match torqueSeries d t_eval ωs, inertiaOfDict d with
    | some torque, some I_total =>
      .ok { time := t_eval
            angle := θs
            angular_velocity := ωs
            torque := torque
            power := torque.zipWith (fun τ ω => τ * ω) ωs
            kinetic_energy := ωs.map fun ω => 1/2 * I_total * ω ^ 2
            success := true
            message := "Simulation completed successfully"
            n_evaluations := nfev }
    | _, _ => .ok (failedResult "KeyError")

/-- Embeds the metrics dict returned by `compute_metrics`
(`main_model.py` lines 216-333).  The fields below are the ones the claims
concern; the remaining entries of the returned dict (`power_peak`,
`efficiency_peak`, the time-in-band percentages, ...) are further independent
reductions of the same series. -/
structure Metrics where
  E_total : ℚ
  E_util : ℚ
  A_total : ℚ
  eta : ℚ
  epsilon : ℚ
  E_losses : ℚ
  power_total_series : List ℚ
  power_util_series : List ℚ
  efficiency_instantaneous : List ℚ
  efficiency_average : ℚ

/-- Embeds `compute_metrics` (`main_model.py` lines 216-333) on the sampled
trajectory `(t, ω)`:
`E_total = Σ tau_input·(ω_i+ω_{i+1})/2·Δt_i`;
`E_util` sums `tau_grass_func(t_i)` (left endpoints `t[:-1]`) or the constant
`k_grass·rho_veg·v_avance·R` against the same midpoint-`ω` weights;
`A_total = v_avance·w·t[-1]` (`w` defaulting to 1.8);
`eta = E_util/E_total` when `E_total > 0` else 0, likewise `epsilon`;
the instantaneous efficiency is `(power_util/power_total)·100` where
`power_total > 1e-6` and `power_util ≥ 0` (the `np.isfinite` conjuncts of the
mask at line 282 are identically true over exact arithmetic), `0` elsewhere,
then `np.clip`-ped to `[0, 100]`; `efficiency_average` is its mean and
`E_losses = E_total - E_util`. -/
def computeMetrics (t ω : List ℚ) (p : Params) : Metrics :=
  let tau_grass_const := p.k_grass * p.rho_veg * p.v_avance * p.R
  let E_total := sumMidDt p.tau_input t ω
  let E_util :=
    match p.tau_grass_func with
    | some f => sumLeftSampled f t ω
    | none => sumMidDt tau_grass_const t ω
  let w := p.w.getD (9/5)
  let A_total := p.v_avance * w * (t.getLastD 0)
  let eta := if 0 < E_total then E_util / E_total else 0
  let epsilon := if 0 < E_total then A_total / E_total else 0
  let power_total_full := ω.map fun x => p.tau_input * x
  let power_util_full :=
    match p.tau_grass_func with
    | some f => (t.zip ω).map fun q => f q.1 * q.2
    | none => ω.map fun x => tau_grass_const * x
  let efficiency_instantaneous :=
    (power_total_full.zip power_util_full).map fun q =>
      npClip (if 1/1000000 < q.1 ∧ 0 ≤ q.2 then q.2 / q.1 * 100 else 0) 0 100
  { E_total := E_total
    E_util := E_util
    A_total := A_total
    eta := eta
    epsilon := epsilon
    E_losses := E_total - E_util
    power_total_series := power_total_full
    power_util_series := power_util_full
    efficiency_instantaneous := efficiency_instantaneous
    efficiency_average := npMean efficiency_instantaneous }

/-- Embeds the result dict of `simulate_advanced_configuration`
(`main_model.py` lines 189-209); the sqrt-based `statistics` entries
(`omega_rms`, `torque_rms`) are outside exact arithmetic and no claim
concerns them. -/
structure AdvResult where
  time : List ℚ
  theta : List ℚ
  omega : List ℚ
  torque : List ℚ
  kinetic_energy : List ℚ
  power : List ℚ
  moment_of_inertia : ℚ
  work_total : ℚ
  advanced_metrics : Metrics

/-- Embeds `simulate_advanced_configuration` (`main_model.py` lines 91-209).
In contrast to `runSimulation`, the `solve_ivp` call is NOT wrapped in a
`try`: when `sol.success` is false the function raises
`RuntimeError("La integración falló: " + sol.message)`, which propagates to
the caller (`Except.error`). -/
def simulateAdvancedConfiguration (d : ParamDict) (t_max : ℚ)
    (t_eval? : Option (List ℚ)) (y0? : Option (ℚ × ℚ)) (sol : SolveIvp) :
    Except String AdvResult := do
  validateParamsMain d
  match y0? with
  | none => .ok ()
  | some y0 =>
    if 100 < |y0.1| then .error "Angulo inicial excesivo"
    else if 1000 < |y0.2| then .error "Velocidad angular inicial excesiva"
    else .ok ()
  let t_eval := t_eval?.getD (linspace 0 t_max 1000)
  match sol with
  | .fail msg => .error ("La integración falló: " ++ msg)
  | .solOk θs ωs _ =>
    match toParams d with
    | none => .error "KeyError"
    | some p =>
      let I_total := p.I_plate + ((p.n_blades.getD 2 : ℤ) : ℚ) * p.m_c * (p.R + p.L) ^ 2
      let torque := (t_eval.zip ωs).map fun q => (calculateTorqueComponents q.1 q.2 p).net
      let power := torque.zipWith (fun τ ω => τ * ω) ωs
      .ok { time := t_eval
            theta := θs
            omega := ωs
            torque := torque
            kinetic_energy := ωs.map fun ω => 1/2 * I_total * ω ^ 2
            power := power
            moment_of_inertia := I_total
            work_total := trapz t_eval power
            advanced_metrics := computeMetrics t_eval ωs p }

/-- `np.mean` over ℝ (the analyzer module works with square roots, hence ℝ).
On an empty array numpy returns NaN (with a warning, not an exception);
here `0/0 = 0`. -/
noncomputable def meanR (l : List ℝ) : ℝ := l.sum / l.length

/-- `np.std` (population standard deviation, `ddof = 0`):
`sqrt(mean((x - mean x)^2))`. -/
noncomputable def stdR (l : List ℝ) : ℝ :=
  Real.sqrt (meanR (l.map fun x => (x - meanR l) ^ 2))

/-- `np.trapz(y, x)` over ℝ; first argument is `x`, second `y`. -/
noncomputable def trapzR : List ℝ → List ℝ → ℝ
  | x0 :: x1 :: xs, y0 :: y1 :: ys => (y0 + y1) / 2 * (x1 - x0) + trapzR (x1 :: xs) (y1 :: ys)
  | _, _ => 0

/-- `np.diff` over ℝ. -/
def diffR (l : List ℝ) : List ℝ := (l.zip l.tail).map fun p => p.2 - p.1

/-- The parameter dictionary as read by `PerformanceAnalyzer` — every access
is `parameters.get(key, default)` (`metrics.py` lines 161-165, 222-223), so
missing keys never raise here. -/
structure AnalyzerParams where
  tau_input : Option ℝ := none
  k_grass : Option ℝ := none
  rho_veg : Option ℝ := none
  v_avance : Option ℝ := none
  R : Option ℝ := none
  w : Option ℝ := none
  tau_grass_func : Option (ℝ → ℝ) := none

/-- Embeds `SimulationResult` as consumed by `PerformanceAnalyzer.analyze`
(`metrics.py` lines 86-91): the five series, the success flag and the
parameter dict. -/
structure AnalyzerInput where
  time : List ℝ
  angular_velocity : List ℝ
  torque : List ℝ
  power : List ℝ
  kinetic_energy : List ℝ
  success : Bool
  parameters : AnalyzerParams

/-- The energy entries of `PerformanceAnalyzer._calculate_energy_metrics`
(`metrics.py` lines 153-190). -/
structure EnergyVals where
  efficiency : ℝ
  cutting_efficiency : ℝ
  energy_total : ℝ
  energy_useful : ℝ
  energy_losses : ℝ

/-- Embeds `PerformanceAnalyzer._calculate_energy_metrics`
(`metrics.py` lines 153-190): `energy_total = trapz(|power|, time)`;
`useful_power = tau_grass(t)·|power|/(tau_input + 1e-10)` (strategy sampled
per time point, or the constant `k_grass·rho_veg·v_avance·R`);
`efficiency = energy_useful/(energy_total + 1e-10)`.  All parameter reads use
`.get(key, 0)`.  Total on empty arrays: `np.trapz` of empty arrays is `0.0`. -/
noncomputable def energyMetricsCalc (time power : List ℝ) (p : AnalyzerParams) : EnergyVals :=
  let energy_total := trapzR time (power.map fun x => |x|)
  let tau_input := p.tau_input.getD 0
  let k_grass := p.k_grass.getD 0
  let rho_veg := p.rho_veg.getD 0
  let v_avance := p.v_avance.getD 0
  let R := p.R.getD 0
  let useful_power :=
    match p.tau_grass_func with
    | some f => (time.zip power).map fun q => f q.1 * |q.2| / (tau_input + 1/10000000000)
    | none => power.map fun x => k_grass * rho_veg * v_avance * R / (tau_input + 1/10000000000) * |x|
  let energy_useful := trapzR time useful_power
  let efficiency := energy_useful / (energy_total + 1/10000000000)
  { efficiency := efficiency
    cutting_efficiency := efficiency
    energy_total := energy_total
    energy_useful := energy_useful
    energy_losses := energy_total - energy_useful }

/-- The power entries of `PerformanceAnalyzer._calculate_power_metrics`
(`metrics.py` lines 192-199). -/
structure PowerVals where
  avg : ℝ
  max : ℝ
  min : ℝ
  rms : ℝ

/-- Embeds `PerformanceAnalyzer._calculate_power_metrics`
(`metrics.py` lines 192-199).  `np.mean` of an empty array is NaN (warning
only), but `np.max` / `np.min` of an empty array RAISE `ValueError`, so on an
empty power series this computation raises. -/
noncomputable def powerMetricsCalc (power : List ℝ) : Except String PowerVals := do
  let mx ← npMax power
  let mn ← npMin power
  .ok { avg := meanR power, max := mx, min := mn,
        rms := Real.sqrt (meanR (power.map fun x => x ^ 2)) }

/-- Embeds the per-signal stability computation of
`PerformanceAnalyzer._calculate_stability_metrics` (`metrics.py` lines
201-218), applied identically to each of the three signals:
`1 - std(signal)/(mean(|signal|) + 1e-10)`, then clamped by
`max(0, min(1, ·))`. -/
noncomputable def stabilityIndex (signal : List ℝ) : ℝ :=
  max 0 (min 1 (1 - stdR signal / (meanR (signal.map fun x => |x|) + 1/10000000000)))

/-- The three stability indices returned by
`PerformanceAnalyzer._calculate_stability_metrics`. -/
structure StabilityVals where
  omega : ℝ
  torque : ℝ
  power : ℝ

/-- Embeds `PerformanceAnalyzer._calculate_stability_metrics`
(`metrics.py` lines 201-218). -/
noncomputable def calculateStabilityMetrics (ω τ P : List ℝ) : StabilityVals :=
  { omega := stabilityIndex ω, torque := stabilityIndex τ, power := stabilityIndex P }

/-- The record returned by the module-level `calculate_stability_metrics`
(`metrics.py` lines 341-367); the `range` entry (`np.ptp`, raising on empty
input) is not modelled — no claim concerns it. -/
structure StabRecord where
  stability_index : ℝ
  coefficient_of_variation : ℝ
  mean : ℝ
  std : ℝ
  rms : ℝ

/-- Embeds the module-level `calculate_stability_metrics`
(`metrics.py` lines 341-367): `cv = std/(mean(|signal|) + 1e-10)` and
`stability_index = max(0, min(1, 1 - cv))`. -/
noncomputable def calculateStabilityMetricsFn (signal : List ℝ) : StabRecord :=
  let mean_val := meanR (signal.map fun x => |x|)
  let std_val := stdR signal
  let cv := std_val / (mean_val + 1/10000000000)
  { stability_index := max 0 (min 1 (1 - cv))
    coefficient_of_variation := cv
    mean := mean_val
    std := std_val
    rms := Real.sqrt (meanR (signal.map fun x => x ^ 2)) }

/-- The cutting entries of `PerformanceAnalyzer._calculate_cutting_metrics`
(`metrics.py` lines 220-238). -/
structure CuttingVals where
  area_cut : ℝ
  cutting_rate : ℝ
  area_efficiency : ℝ

/-- Embeds `PerformanceAnalyzer._calculate_cutting_metrics`
(`metrics.py` lines 220-238): `area_cut = v_avance · w · time[-1]` — the
`time[-1]` access raises `IndexError` on an empty time array. -/
noncomputable def cuttingMetrics (time : List ℝ) (p : AnalyzerParams) : Except String CuttingVals := do
  let v_avance := p.v_avance.getD 0
  let w := p.w.getD (9/5)
  let t_final ← npLast time
  .ok { area_cut := v_avance * w * t_final, cutting_rate := v_avance * w, area_efficiency := 0 }

/-- The dynamic-response entries of
`PerformanceAnalyzer._calculate_dynamic_metrics` (`metrics.py` lines
240-266). -/
structure DynVals where
  settling_time : ℝ
  overshoot : ℝ
  steady_state_error : ℝ

/-- Embeds `PerformanceAnalyzer._calculate_dynamic_metrics`
(`metrics.py` lines 240-266): `final_omega = omega[-1]` (raises on empty);
the loop scans indices `len-1, ..., 1` downwards and stops at the first
sample deviating from the final value by more than `0.05·|final|`, defaulting
to `time[-1]`; overshoot is `(max(omega) - final)/|final|·100` when the final
value is nonzero. -/
noncomputable def dynamicMetrics (time omega : List ℝ) : Except String DynVals := do
  let final_omega ← npLast omega
  let settling_threshold := 5/100 * |final_omega|
  let default_settling ← npLast time
  let settling_time :=
    match ((time.zip omega).drop 1).reverse.find? (fun q => settling_threshold < |q.2 - final_omega|) with
    | some q => q.1
    | none => default_settling
  let overshoot ←
    if final_omega = 0 then pure (0 : ℝ)
    else do
      let mx ← npMax omega
      pure ((mx - final_omega) / |final_omega| * 100)
  .ok { settling_time := settling_time, overshoot := overshoot, steady_state_error := 0 }

/-- First index of the maximum of a list (`np.argmax`: ties resolved to the
first occurrence). -/
noncomputable def argmaxAux : List ℝ → ℕ → ℕ → ℝ → ℕ
  | [], _, bi, _ => bi
  | y :: ys, i, bi, bv => if bv < y then argmaxAux ys (i + 1) i y else argmaxAux ys (i + 1) bi bv

/-- `np.argmax` of a 1-d array (0 on an empty array — numpy raises there, but
the caller guards with a nonempty check). -/
noncomputable def argmaxIdx : List ℝ → ℕ
  | [] => 0
  | x :: xs => argmaxAux xs 1 0 x

/-- Magnitude of the `k`-th discrete Fourier coefficient of a real series,
`|Σ_j x_j · exp(-2πi·j·k/n)|` (`np.fft.fft` followed by `np.abs`). -/
noncomputable def fftAbs (x : List ℝ) (k : ℕ) : ℝ :=
  Complex.abs ((x.enum.map fun p =>
    (p.2 : ℂ) * Complex.exp (-2 * Real.pi * Complex.I * p.1 * k / x.length)).sum)

/-- The frequency entries of `PerformanceAnalyzer._calculate_frequency_metrics`
(`metrics.py` lines 268-304); the `spectrum` dict is flattened into the
frequency/magnitude lists and the sampling frequency. -/
structure FreqVals where
  dominant_frequency : ℝ
  frequencies : List ℝ
  magnitudes : List ℝ
  sampling_frequency : ℝ

/-- Embeds `PerformanceAnalyzer._calculate_frequency_metrics`
(`metrics.py` lines 268-304): with fewer than 10 samples it returns zeros;
otherwise `dt = mean(diff(time))`, `fs = 1/dt`, the positive bins are
`k = 1 .. n//2 - 1` with frequencies `k/(n·dt)` (`np.fft.fftfreq`), and the
dominant frequency is the positive bin of largest magnitude (DC excluded). -/
noncomputable def frequencyMetrics (time torque : List ℝ) : FreqVals :=
  if time.length < 10 then
    { dominant_frequency := 0, frequencies := [], magnitudes := [], sampling_frequency := 0 }
  else
    let n := time.length
    let dt := meanR (diffR time)
    let fs := 1 / dt
    let posK := (List.range (n / 2)).drop 1
    let positive_freqs := posK.map fun k => (k : ℝ) / (n * dt)
    let positive_fft := posK.map fun k => fftAbs torque k
    let dominant_frequency :=
      if positive_fft.isEmpty then 0 else positive_freqs.getD (argmaxIdx positive_fft) 0
    { dominant_frequency := dominant_frequency
      frequencies := positive_freqs
      magnitudes := positive_fft
      sampling_frequency := fs }

/-- The entries of `PerformanceAnalyzer._calculate_statistical_metrics`
(`metrics.py` lines 306-324). -/
structure StatsVals where
  simulation_duration : ℝ
  n_points : ℕ
  omega_range : ℝ
  omega_mean : ℝ
  omega_std : ℝ
  torque_range : ℝ
  torque_mean : ℝ
  torque_std : ℝ
  power_range : ℝ
  power_mean : ℝ
  power_std : ℝ
  energy_final : ℝ
  energy_peak : ℝ

/-- Embeds `PerformanceAnalyzer._calculate_statistical_metrics`
(`metrics.py` lines 306-324): `time[-1] - time[0]`, `np.ptp = max - min`
per series (raising on empty input), means, standard deviations, final and
peak kinetic energy. -/
noncomputable def statisticalMetrics (time ω τ P ke : List ℝ) : Except String StatsVals := do
  let t_last ← npLast time
  let t_first ← npFirst time
  let ωmax ← npMax ω
  let ωmin ← npMin ω
  let τmax ← npMax τ
  let τmin ← npMin τ
  let Pmax ← npMax P
  let Pmin ← npMin P
  let ke_last ← npLast ke
  let ke_peak ← npMax ke
  .ok { simulation_duration := t_last - t_first
        n_points := time.length
        omega_range := ωmax - ωmin
        omega_mean := meanR ω
        omega_std := stdR ω
        torque_range := τmax - τmin
        torque_mean := meanR τ
        torque_std := stdR τ
        power_range := Pmax - Pmin
        power_mean := meanR P
        power_std := stdR P
        energy_final := ke_last
        energy_peak := ke_peak }

/-- Embeds `PerformanceMetrics` (`metrics.py` lines 21-58), with the
`frequency_content` and `statistics` dicts flattened. -/
structure PerfMetrics where
  efficiency : ℝ
  cutting_efficiency : ℝ
  energy_total : ℝ
  energy_useful : ℝ
  energy_losses : ℝ
  power_avg : ℝ
  power_max : ℝ
  power_min : ℝ
  power_rms : ℝ
  omega_stability : ℝ
  torque_stability : ℝ
  power_stability : ℝ
  area_cut : ℝ
  cutting_rate : ℝ
  area_efficiency : ℝ
  settling_time : ℝ
  overshoot : ℝ
  steady_state_error : ℝ
  dominant_frequency : ℝ
  frequencies : List ℝ
  magnitudes : List ℝ
  sampling_frequency : ℝ
  stats : StatsVals

/-- Embeds `PerformanceAnalyzer.analyze` (`metrics.py` lines 73-151).
On `success = False` the Python code only LOGS a warning (line 84) and
proceeds; the sub-computations run in source order, and the first exception
any of them raises propagates to the caller (`Except.error`). -/
noncomputable def analyze (r : AnalyzerInput) : Except String PerfMetrics := do
  let em := energyMetricsCalc r.time r.power r.parameters
  let pm ← powerMetricsCalc r.power
  let sm := calculateStabilityMetrics r.angular_velocity r.torque r.power
  let cm ← cuttingMetrics r.time r.parameters
  let dm ← dynamicMetrics r.time r.angular_velocity
  let fm := frequencyMetrics r.time r.torque
  let stm ← statisticalMetrics r.time r.angular_velocity r.torque r.power r.kinetic_energy
  .ok { efficiency := em.efficiency
        cutting_efficiency := em.cutting_efficiency
        energy_total := em.energy_total
        energy_useful := em.energy_useful
        energy_losses := em.energy_losses
        power_avg := pm.avg
        power_max := pm.max
        power_min := pm.min
        power_rms := pm.rms
        omega_stability := sm.omega
        torque_stability := sm.torque
        power_stability := sm.power
        area_cut := cm.area_cut
        cutting_rate := cm.cutting_rate
        area_efficiency := cm.area_efficiency
        settling_time := dm.settling_time
        overshoot := dm.overshoot
        steady_state_error := dm.steady_state_error
        dominant_frequency := fm.dominant_frequency
        frequencies := fm.frequencies
        magnitudes := fm.magnitudes
        sampling_frequency := fm.sampling_frequency
        stats := stm }

/-- A concrete parameter dictionary with the ten required keys present and in
range (for both validators) and NO `n_blades` key. -/
def paramsNoBlades : ParamDict :=
  { I_plate := some 2, m_c := some 2, R := some 1, L := some 1, tau_input := some 100,
    b := some 1, c_drag := some 1, rho_veg := some 1, k_grass := some 10, v_avance := some 2 }

/-- A torque strategy that returns NaN at every time. -/
def nanTorqueStrategy : ℚ → PyRet := fun _ => .num .nan

/-- A torque strategy returning the finite value 150 at every time. -/
def goodTorqueStrategy : ℚ → PyRet := fun _ => .num (.fin 150)

/-- The failed trajectory produced by the `except` branch of
`run_simulation`: `success = False` and all six series empty, handed to the
analyzer. -/
noncomputable def emptyFailedTrajectory : AnalyzerInput :=
  { time := [], angular_velocity := [], torque := [], power := [],
    kinetic_energy := [], success := false, parameters := {} }

/-- Parameters (with an identity time-varying strategy) for exercising
`compute_metrics`. -/
def paramsIdStrategy : Params :=
  { I_plate := 1, m_c := 1, R := 1, L := 1, tau_input := 1, b := 0, c_drag := 0,
    rho_veg := 1, k_grass := 1, v_avance := 1, tau_grass_func := some (fun t => t) }

/-- Parameters with no strategy and unit constant vegetation torque. -/
def paramsConstVeg : Params :=
  { I_plate := 1, m_c := 1, R := 1, L := 1, tau_input := 2, b := 0, c_drag := 0,
    rho_veg := 1, k_grass := 1, v_avance := 1 }

/-- The success/failure dichotomy of `run_simulation` relative to a solver
outcome: a successful result has strictly increasing time samples; a failed
result has all six series empty; and a solver failure yields a failed result
whose message is the (never empty) string `"Integration failed: " + sol.message`. -/
def RunDichotomy (sol : SolveIvp) (r : SimulationResult) : Prop :=
  (r.success = true → r.time.Chain' (· < ·))
  ∧ (r.success = false → r.time = [] ∧ r.angle = [] ∧ r.angular_velocity = [] ∧
      r.torque = [] ∧ r.power = [] ∧ r.kinetic_energy = [])
  ∧ (∀ m, sol = .fail m → r.success = false ∧
      r.message = "Integration failed: " ++ m ∧ r.message ≠ "")

/-- The contrapositive content of the amended C9: every one of the ten
required fields is present AND within its documented bounds
(`ParameterLimits`, `validation.py` lines 39-81): `I_plate` positive in
`[1e-6, 1000]`, `m_c` positive in `[0.1, 1000]`, `R` positive in
`[0.01, 5]`, `L` in `[0, 2R]`, `tau_input` positive in `[0.1, 10000]`,
`b` in `[0, 100]`, `c_drag` in `[0, 10]`, `rho_veg` in `[0, 10]`,
`k_grass` in `[0, 1000]`, `v_avance` in `[0, 20]`. -/
def RequiredWithinBounds (d : ParamDict) : Prop :=
  (∃ I, d.I_plate = some I ∧ 0 < I ∧ 1/1000000 ≤ I ∧ I ≤ 1000)
  ∧ (∃ m, d.m_c = some m ∧ 0 < m ∧ 1/10 ≤ m ∧ m ≤ 1000)
  ∧ (∃ R L, d.R = some R ∧ 0 < R ∧ 1/100 ≤ R ∧ R ≤ 5 ∧
      d.L = some L ∧ 0 ≤ L ∧ L ≤ 2 * R)
  ∧ (∃ τ, d.tau_input = some τ ∧ 0 < τ ∧ 1/10 ≤ τ ∧ τ ≤ 10000)
  ∧ (∃ b, d.b = some b ∧ 0 ≤ b ∧ b ≤ 100)
  ∧ (∃ c, d.c_drag = some c ∧ 0 ≤ c ∧ c ≤ 10)
  ∧ (∃ ρ, d.rho_veg = some ρ ∧ 0 ≤ ρ ∧ ρ ≤ 10)
  ∧ (∃ k, d.k_grass = some k ∧ 0 ≤ k ∧ k ≤ 1000)
  ∧ (∃ v, d.v_avance = some v ∧ 0 ≤ v ∧ v ≤ 20)

-- ---------------------------------------------------------------------------
-- Helper lemmas
-- ---------------------------------------------------------------------------

/-- Sequencing inversion for `Except`: a successful `bind` means both stages
succeeded. -/
theorem exceptBind_ok {α : Type} {a : Except String Unit} {f : Unit → Except String α} {v : α}
    (h : (a >>= f) = .ok v) : a = .ok () ∧ f () = .ok v := by
  cases a with
  | error e => simp [Bind.bind, Except.bind] at h
  | ok u => exact ⟨rfl, by simpa [Bind.bind, Except.bind] using h⟩

/-- A value clamped by `max 0 (min 1 ·)` lies in `[0, 1]`. -/
theorem clamp01_mem (x : ℝ) : 0 ≤ max 0 (min 1 x) ∧ max 0 (min 1 x) ≤ 1 :=
  ⟨le_max_left _ _, max_le (by norm_num) (min_le_left _ _)⟩

/-- A successful `checkRequired` means the ten required keys are present. -/
theorem checkRequired_ok {d : ParamDict} (h : checkRequired d = .ok ()) :
    d.I_plate.isSome ∧ d.m_c.isSome ∧ d.R.isSome ∧ d.L.isSome ∧ d.tau_input.isSome ∧
    d.b.isSome ∧ d.c_drag.isSome ∧ d.rho_veg.isSome ∧ d.k_grass.isSome ∧ d.v_avance.isSome := by
  unfold checkRequired at h
  split_ifs at h with hc
  exact hc

/-- A successful `checkGeometric` yields a present, positive radius and a
present, non-negative blade length. -/
theorem checkGeometric_ok {d : ParamDict} (h : checkGeometric d = .ok ()) :
    ∃ R L, d.R = some R ∧ 0 < R ∧ d.L = some L ∧ 0 ≤ L := by
  unfold checkGeometric at h
  rcases hR : d.R with _ | R <;> rw [hR] at h <;> dsimp only at h
  · simp at h
  · rcases hL : d.L with _ | L <;> rw [hL] at h <;> dsimp only at h
    · split_ifs at h <;> simp_all
    · rcases hw : d.w with _ | w <;> rw [hw] at h <;> dsimp only at h <;>
        split_ifs at h with h1 h2 h3 h4 <;> try simp at h
      · exact ⟨R, L, rfl, not_le.mp h1, rfl, not_lt.mp h3⟩
      · exact ⟨R, L, rfl, not_le.mp h1, rfl, not_lt.mp h3⟩

/-- A successful `checkMass` yields present, positive `I_plate` and `m_c`. -/
theorem checkMass_ok {d : ParamDict} (h : checkMass d = .ok ()) :
    ∃ I m, d.I_plate = some I ∧ 0 < I ∧ d.m_c = some m ∧ 0 < m := by
  unfold checkMass at h
  rcases hI : d.I_plate with _ | I <;> rw [hI] at h <;> dsimp only at h
  · simp at h
  · rcases hm : d.m_c with _ | m <;> rw [hm] at h <;> dsimp only at h
    · split_ifs at h <;> simp_all
    · split_ifs at h with h1 h2 h3 h4 <;> try simp at h
      exact ⟨I, m, rfl, not_le.mp h1, rfl, not_le.mp h3⟩

/-- A successful `checkBlades` bounds any present blade count to `[1, 12]`. -/
theorem checkBlades_ok {d : ParamDict} (h : checkBlades d = .ok ()) :
    ∀ n, d.n_blades = some n → 1 ≤ n ∧ n ≤ 12 := by
  intro n hn
  unfold checkBlades at h
  rw [hn] at h
  dsimp only at h
  split_ifs at h with h1 h2 <;> try simp at h
  exact ⟨not_lt.mp h1, not_lt.mp h2⟩

/-- A successful `checkGeometric` places `R` and `L` within the documented
bounds: `R` positive in `[MIN_RADIUS, MAX_RADIUS] = [0.01, 5]`, `L`
non-negative and at most `MAX_LENGTH_RATIO·R = 2R`. -/
theorem checkGeometric_bounds {d : ParamDict} (h : checkGeometric d = .ok ()) :
    ∃ R L, d.R = some R ∧ 0 < R ∧ 1/100 ≤ R ∧ R ≤ 5 ∧
      d.L = some L ∧ 0 ≤ L ∧ L ≤ 2 * R := by
  unfold checkGeometric at h
  rcases hR : d.R with _ | R <;> rw [hR] at h <;> dsimp only at h
  · simp at h
  · rcases hL : d.L with _ | L <;> rw [hL] at h <;> dsimp only at h
    · split_ifs at h <;> simp_all
    · rcases hw : d.w with _ | w <;> rw [hw] at h <;> dsimp only at h <;>
        split_ifs at h with h1 h2 h3 h4 <;> try simp at h
      · push_neg at h2
        exact ⟨R, L, rfl, not_le.mp h1, h2.1, h2.2, rfl, not_lt.mp h3, not_lt.mp h4⟩
      · push_neg at h2
        exact ⟨R, L, rfl, not_le.mp h1, h2.1, h2.2, rfl, not_lt.mp h3, not_lt.mp h4⟩

/-- A successful `checkMass` places `I_plate` and `m_c` within the documented
bounds: positive, `I_plate ∈ [MIN_INERTIA, MAX_INERTIA] = [1e-6, 1000]`,
`m_c ∈ [MIN_MASS, MAX_MASS] = [0.1, 1000]`. -/
theorem checkMass_bounds {d : ParamDict} (h : checkMass d = .ok ()) :
    ∃ I m, d.I_plate = some I ∧ 0 < I ∧ 1/1000000 ≤ I ∧ I ≤ 1000 ∧
      d.m_c = some m ∧ 0 < m ∧ 1/10 ≤ m ∧ m ≤ 1000 := by
  unfold checkMass at h
  rcases hI : d.I_plate with _ | I <;> rw [hI] at h <;> dsimp only at h
  · simp at h
  · rcases hm : d.m_c with _ | m <;> rw [hm] at h <;> dsimp only at h
    · split_ifs at h <;> simp_all
    · split_ifs at h with h1 h2 h3 h4 <;> try simp at h
      push_neg at h2 h4
      exact ⟨I, m, rfl, not_le.mp h1, h2.1, h2.2, rfl, not_le.mp h3, h4.1, h4.2⟩

/-- A successful `checkTorqueParams` places `tau_input` within the documented
bounds: positive in `[MIN_TORQUE, MAX_TORQUE] = [0.1, 10000]`. -/
theorem checkTorqueParams_bounds {d : ParamDict} (h : checkTorqueParams d = .ok ()) :
    ∃ τ, d.tau_input = some τ ∧ 0 < τ ∧ 1/10 ≤ τ ∧ τ ≤ 10000 := by
  unfold checkTorqueParams at h
  rcases hτ : d.tau_input with _ | τ <;> rw [hτ] at h <;> dsimp only at h
  · simp at h
  · split_ifs at h with h1 h2 <;> try simp at h
    push_neg at h2
    exact ⟨τ, rfl, not_le.mp h1, h2.1, h2.2⟩

/-- A successful `checkResistance` places `b` in `[0, MAX_FRICTION] = [0, 100]`
and `c_drag` in `[0, MAX_DRAG] = [0, 10]`. -/
theorem checkResistance_bounds {d : ParamDict} (h : checkResistance d = .ok ()) :
    ∃ b c, d.b = some b ∧ 0 ≤ b ∧ b ≤ 100 ∧
      d.c_drag = some c ∧ 0 ≤ c ∧ c ≤ 10 := by
  unfold checkResistance at h
  rcases hb : d.b with _ | b <;> rw [hb] at h <;> dsimp only at h
  · simp at h
  · rcases hc : d.c_drag with _ | c <;> rw [hc] at h <;> dsimp only at h
    · split_ifs at h <;> simp_all
    · split_ifs at h with h1 h2 h3 h4 <;> try simp at h
      exact ⟨b, c, rfl, not_lt.mp h1, not_lt.mp h2, rfl, not_lt.mp h3, not_lt.mp h4⟩

/-- A successful `checkVegetation` places `rho_veg` in `[0, MAX_DENSITY] = [0, 10]`,
`k_grass` in `[0, MAX_RESISTANCE] = [0, 1000]` and `v_avance` in
`[0, MAX_LINEAR_VELOCITY] = [0, 20]`. -/
theorem checkVegetation_bounds {d : ParamDict} (h : checkVegetation d = .ok ()) :
    ∃ ρ k v, d.rho_veg = some ρ ∧ 0 ≤ ρ ∧ ρ ≤ 10 ∧
      d.k_grass = some k ∧ 0 ≤ k ∧ k ≤ 1000 ∧
      d.v_avance = some v ∧ 0 ≤ v ∧ v ≤ 20 := by
  unfold checkVegetation at h
  rcases hρ : d.rho_veg with _ | ρ <;> rw [hρ] at h <;> dsimp only at h
  · simp at h
  · rcases hk : d.k_grass with _ | k <;> rw [hk] at h <;> dsimp only at h
    · split_ifs at h <;> simp_all
    · rcases hv : d.v_avance with _ | v <;> rw [hv] at h <;> dsimp only at h
      · split_ifs at h <;> simp_all
      · split_ifs at h with h1 h2 h3 h4 h5 h6 <;> try simp at h
        exact ⟨ρ, k, v, rfl, not_lt.mp h1, not_lt.mp h2, rfl, not_lt.mp h3, not_lt.mp h4,
          rfl, not_lt.mp h5, not_lt.mp h6⟩

/-- Decomposition of a successful `validate_parameters` run into its
individual checks. -/
theorem validateParameters_ok {d : ParamDict} (h : validateParameters d = .ok ()) :
    checkRequired d = .ok () ∧ checkGeometric d = .ok () ∧ checkMass d = .ok () ∧
    checkTorqueParams d = .ok () ∧ checkResistance d = .ok () ∧ checkVegetation d = .ok () ∧
    checkBlades d = .ok () := by
  unfold validateParameters at h
  obtain ⟨h1, h⟩ := exceptBind_ok h
  obtain ⟨h2, h⟩ := exceptBind_ok h
  obtain ⟨h3, h⟩ := exceptBind_ok h
  obtain ⟨h4, h⟩ := exceptBind_ok h
  obtain ⟨h5, h⟩ := exceptBind_ok h
  obtain ⟨h6, h⟩ := exceptBind_ok h
  obtain ⟨h7, h⟩ := exceptBind_ok h
  exact ⟨h1, h2, h3, h4, h5, h6, h7⟩

/-- `np.linspace a b n` is strictly increasing when `a < b` and `n ≥ 2`. -/
theorem linspace_chain {a b : ℚ} {n : ℕ} (hab : a < b) (hn : 2 ≤ n) :
    (linspace a b n).Chain' (· < ·) := by
  unfold linspace
  obtain ⟨k, rfl⟩ : ∃ k, n = k + 1 := ⟨n - 1, by omega⟩
  refine (@List.chain'_map ℚ ℕ (· < ·) _ (List.range (k + 1))).mpr ?_
  rw [List.chain'_range_succ]
  intro m hm
  have hk : (1 : ℚ) ≤ (k : ℚ) := by
    have : 1 ≤ k := by omega
    exact_mod_cast this
  have hkpos : (0 : ℚ) < (k : ℚ) := lt_of_lt_of_le zero_lt_one hk
  have hcast : ((k + 1 - 1 : ℕ) : ℚ) = (k : ℚ) := by norm_num
  rw [hcast]
  have hm1 : (m : ℚ) < ((m + 1 : ℕ) : ℚ) := by push_cast; linarith
  have hba : (0 : ℚ) < b - a := by linarith
  have hmul := mul_lt_mul_of_pos_left hm1 hba
  have hdiv := div_lt_div_of_pos_right hmul hkpos
  linarith [hdiv]

/-- The code-side energy sum with a constant torque factor IS the trapezoidal
rule applied to the scaled velocity series. -/
theorem sumMidDt_eq_trapz (c : ℚ) : ∀ t ω : List ℚ,
    sumMidDt c t ω = trapz t (ω.map fun x => c * x) := by
  intro t
  induction t with
  | nil => intro ω; cases ω <;> simp [sumMidDt, trapz]
  | cons t0 ts ih =>
    intro ω
    cases ts with
    | nil => cases ω with
      | nil => simp [sumMidDt, trapz]
      | cons w0 ws => cases ws <;> simp [sumMidDt, trapz]
    | cons t1 ts' =>
      cases ω with
      | nil => simp [sumMidDt, trapz]
      | cons w0 ws =>
        cases ws with
        | nil => simp [sumMidDt, trapz]
        | cons w1 ws' =>
          have h := ih (w1 :: ws')
          simp only [List.map_cons] at h ⊢
          unfold sumMidDt trapz
          rw [h]
          ring_nf

/-- The mean of a nonempty list of values in `[lo, hi]` lies in `[lo, hi]`
(`lo = 0`, `hi = 100` below). -/
theorem npMean_mem_of_bounds {l : List ℚ} (hne : l ≠ [])
    (h : ∀ x ∈ l, 0 ≤ x ∧ x ≤ 100) : 0 ≤ npMean l ∧ npMean l ≤ 100 := by
  have hlen : (0 : ℚ) < l.length := by
    have := List.length_pos.mpr hne
    exact_mod_cast this
  unfold npMean
  constructor
  · exact div_nonneg (List.sum_nonneg fun x hx => (h x hx).1) (le_of_lt hlen)
  · rw [div_le_iff hlen]
    have := List.sum_le_card_nsmul l 100 fun x hx => (h x hx).2
    simpa [nsmul_eq_mul, mul_comm] using this

/-- `"Integration failed: " ++ m` is never the empty string. -/
theorem integrationFailed_ne_empty (m : String) : "Integration failed: " ++ m ≠ "" := by
  intro hcontr
  have h2 : "Integration failed: ".data ++ m.data = [] := congrArg String.data hcontr
  have h3 := (List.append_eq_nil.mp h2).1
  exact absurd h3 (by decide)

/-- A successful `_validate_config` means `t_start < t_end` and
`n_points ≥ 10`. -/
theorem validateConfig_ok {c : SimulationConfig} (h : validateConfig c = .ok ()) :
    c.t_start < c.t_end ∧ 10 ≤ c.n_points := by
  unfold validateConfig at h
  split_ifs at h with h1 h2 h3 <;> try simp at h
  all_goals exact ⟨not_le.mp h1, not_lt.mp h2⟩

-- ---------------------------------------------------------------------------
-- Claim theorems
-- ---------------------------------------------------------------------------

/-- C3: for every parameter dict containing `I_plate`, `m_c`, `R` and `L`
(with `n_blades` taken as 2 when the key is absent), the total moment of
inertia computed by the model equals `I_plate + n_blades·m_c·(R+L)²`
exactly. -/
theorem c3_inertia_formula (d : ParamDict) (I m R L : ℚ)
    (hI : d.I_plate = some I) (hm : d.m_c = some m)
    (hR : d.R = some R) (hL : d.L = some L) :
    inertiaOfDict d = some (I + ((d.n_blades.getD 2 : ℤ) : ℚ) * m * (R + L) ^ 2) := by
  simp [inertiaOfDict, hI, hm, hR, hL]

/-- Witness for C3 at a concrete dict without an `n_blades` key:
`2 + 2·2·(1+1)² = 18`. -/
theorem c3_inertia_formula_witness : inertiaOfDict paramsNoBlades = some 18 := by
  have h := c3_inertia_formula paramsNoBlades 2 2 1 1 rfl rfl rfl rfl
  norm_num [paramsNoBlades] at h
  exact h

/-- C4: for every time `t`, angular velocity `ω` and parameter set the torque
computation returns exactly the four contributions — input `tau_input`,
viscous friction `b·ω`, aerodynamic drag `c_drag·ω²·sign(ω)` (zero at `ω = 0`
by the sign convention), vegetation `tau_grass_func(t)` when a strategy is
supplied and otherwise `k_grass·rho_veg·v_avance·R` — and a net torque equal
to input minus friction minus drag minus vegetation.  The embedding is a pure
Lean function of `(t, ω, p)`, matching the side-effect-free Python code. -/
theorem c4_torque_components (t ω : ℚ) (p : Params) :
    calculateTorqueComponents t ω p =
      { input := p.tau_input
        friction := p.b * ω
        drag := p.c_drag * ω ^ 2 * qSign ω
        grass :=
          match p.tau_grass_func with
          | some f => f t
          | none => p.k_grass * p.rho_veg * p.v_avance * p.R
        net := p.tau_input - p.b * ω - p.c_drag * ω ^ 2 * qSign ω -
          match p.tau_grass_func with
          | some f => f t
          | none => p.k_grass * p.rho_veg * p.v_avance * p.R }
    ∧ (calculateTorqueComponents t 0 p).drag = 0 := by
  constructor
  · rfl
  · simp [calculateTorqueComponents, qSign]

/-- C6: the stability index is `1 - std/(mean(|signal|) + 1e-10)` clamped to
`[0, 1]`; hence all three analyzer stability indices, and the module-level
stability index, lie in `[0, 1]`. -/
theorem c6_stability_bounds (signal ω τ P : List ℝ) :
    stabilityIndex signal =
      max 0 (min 1 (1 - stdR signal / (meanR (signal.map fun x => |x|) + 1/10000000000)))
    ∧ 0 ≤ stabilityIndex signal ∧ stabilityIndex signal ≤ 1
    ∧ 0 ≤ (calculateStabilityMetrics ω τ P).omega ∧ (calculateStabilityMetrics ω τ P).omega ≤ 1
    ∧ 0 ≤ (calculateStabilityMetrics ω τ P).torque ∧ (calculateStabilityMetrics ω τ P).torque ≤ 1
    ∧ 0 ≤ (calculateStabilityMetrics ω τ P).power ∧ (calculateStabilityMetrics ω τ P).power ≤ 1
    ∧ 0 ≤ (calculateStabilityMetricsFn signal).stability_index
    ∧ (calculateStabilityMetricsFn signal).stability_index ≤ 1 :=
  ⟨rfl,
   (clamp01_mem _).1, (clamp01_mem _).2,
   (clamp01_mem _).1, (clamp01_mem _).2,
   (clamp01_mem _).1, (clamp01_mem _).2,
   (clamp01_mem _).1, (clamp01_mem _).2,
   (clamp01_mem _).1, (clamp01_mem _).2⟩

/-- C7 (code bug): fed the failed trajectory that `run_simulation` produces
(empty series, `success = False`), `analyze` does NOT return a
`PerformanceMetrics` value — `np.max` of the empty power array raises
`ValueError` inside `_calculate_power_metrics`, so the call raises instead of
returning. -/
theorem c7_analyze_raises_on_empty :
    analyze emptyFailedTrajectory =
      .error "zero-size array to reduction operation maximum which has no identity" := rfl

/-- C8 (counterexample): the NaN-returning strategy returns a non-finite
value at every sampled time, yet `_validate_torque_function` accepts it —
`NaN < 0` and `NaN > MAX_TORQUE` are both false in IEEE comparisons, and no
finiteness check exists in the code. -/
theorem c8_counterexample :
    nanTorqueStrategy 0 = .num .nan ∧ FVal.isFinite .nan = false ∧
    validateTorqueFunction nanTorqueStrategy = .ok () := ⟨rfl, rfl, rfl⟩

/-- C8 (amended): `_validate_torque_function` samples the strategy at the
fixed times `[0, 1, 5, 10]` and raises a validation error iff at some sampled
time the strategy raises, returns a non-numeric value, returns a value
comparing `< 0` (which catches `-inf`), or a value comparing `> 10000` (which
catches `+inf`); a NaN return passes every check, so validation success does
NOT imply finiteness of the sampled values. -/
theorem c8_amended (f : ℚ → PyRet) :
    validateTorqueFunction f = .ok () ↔
      ∀ t ∈ torqueTestTimes, ∃ v : FVal, f t = .num v ∧
        v.lt0 = false ∧ v.gtBound 10000 = false := by
  show validateTorqueFunctionAux f torqueTestTimes = .ok () ↔ _
  induction torqueTestTimes with
  | nil => simp [validateTorqueFunctionAux]
  | cons t ts ih =>
    simp only [validateTorqueFunctionAux, List.mem_cons]
    constructor
    · intro h
      obtain ⟨h1, h2⟩ := exceptBind_ok h
      intro x hx
      rcases hx with rfl | hx
      · unfold checkTorqueValue at h1
        rcases hv : f x with v | _ | msg <;> rw [hv] at h1 <;> dsimp only at h1
        · split_ifs at h1 with ha hb <;> try simp at h1
          exact ⟨v, rfl, by simpa using ha, by simpa using hb⟩
        · simp at h1
        · simp at h1
      · exact ih.mp h2 x hx
    · intro h
      obtain ⟨v, hv, hlt, hgt⟩ := h t (Or.inl rfl)
      have h1 : checkTorqueValue (f t) = .ok () := by
        rw [hv]
        unfold checkTorqueValue
        simp [hlt, hgt]
      have h2 : validateTorqueFunctionAux f ts = .ok () := ih.mpr fun x hx => h x (Or.inr hx)
      show (checkTorqueValue (f t) >>= fun _ => validateTorqueFunctionAux f ts) = .ok ()
      rw [h1]
      simpa [Bind.bind, Except.bind] using h2

/-- Witness for C8 (amended) at the everywhere-150 strategy. -/
theorem c8_amended_witness : validateTorqueFunction goodTorqueStrategy = .ok () :=
  (c8_amended goodTorqueStrategy).mpr fun _ _ => ⟨.fin 150, rfl, rfl, rfl⟩

/-- C9 (counterexample): a dict with all ten required keys valid but NO
`n_blades` key passes validation — `n_blades` is not in the required list and
is only checked when present — and the physics then integrates it with the
default of 2 blades (`2 + 2·2·(1+1)² = 18`). -/
theorem c9_counterexample :
    validateParameters paramsNoBlades = .ok () ∧ paramsNoBlades.n_blades = none ∧
    inertiaOfDict paramsNoBlades = some 18 := by
  refine ⟨?_, rfl, ?_⟩
  · norm_num [validateParameters, checkRequired, checkGeometric, checkMass, checkTorqueParams,
      checkResistance, checkVegetation, checkBlades, checkConsistency, paramsNoBlades,
      Bind.bind, Except.bind]
  · norm_num [inertiaOfDict, paramsNoBlades, Option.bind]

/-- C9 (amended): validation, performed once before any integration, raises
whenever one of the TEN required fields (`I_plate, m_c, R, L, tau_input, b,
c_drag, rho_veg, k_grass, v_avance`) is missing or out of bounds —
contrapositively, a successful validation means every required field is
present AND within its documented range (`RequiredWithinBounds`);
`n_blades` however is optional — a dict lacking it passes validation and is
integrated with the default of 2 blades (counterexample above) — and is
checked to be an integer in 1..12 only when present. -/
theorem c9_amended (d : ParamDict) (h : validateParameters d = .ok ()) :
    RequiredWithinBounds d ∧ (∀ n, d.n_blades = some n → 1 ≤ n ∧ n ≤ 12) := by
  obtain ⟨_, hgeo, hmass, htau, hres, hveg, hbl⟩ := validateParameters_ok h
  obtain ⟨I, m, hI, hI0, hI1, hI2, hm, hm0, hm1, hm2⟩ := checkMass_bounds hmass
  obtain ⟨R, L, hR, hR0, hR1, hR2, hL, hL0, hL1⟩ := checkGeometric_bounds hgeo
  obtain ⟨τ, hτ, hτ0, hτ1, hτ2⟩ := checkTorqueParams_bounds htau
  obtain ⟨b, c, hb, hb0, hb1, hc, hc0, hc1⟩ := checkResistance_bounds hres
  obtain ⟨ρ, k, v, hρ, hρ0, hρ1, hk, hk0, hk1, hv, hv0, hv1⟩ := checkVegetation_bounds hveg
  exact ⟨⟨⟨I, hI, hI0, hI1, hI2⟩, ⟨m, hm, hm0, hm1, hm2⟩,
    ⟨R, L, hR, hR0, hR1, hR2, hL, hL0, hL1⟩, ⟨τ, hτ, hτ0, hτ1, hτ2⟩,
    ⟨b, hb, hb0, hb1⟩, ⟨c, hc, hc0, hc1⟩, ⟨ρ, hρ, hρ0, hρ1⟩,
    ⟨k, hk, hk0, hk1⟩, ⟨v, hv, hv0, hv1⟩⟩, checkBlades_ok hbl⟩

/-- Witness for C9 (amended) at the concrete dict `paramsNoBlades`. -/
theorem c9_amended_witness :
    RequiredWithinBounds paramsNoBlades ∧
    (∀ n, paramsNoBlades.n_blades = some n → 1 ≤ n ∧ n ≤ 12) :=
  c9_amended paramsNoBlades (by
    norm_num [validateParameters, checkRequired, checkGeometric, checkMass, checkTorqueParams,
      checkResistance, checkVegetation, checkBlades, checkConsistency, paramsNoBlades,
      Bind.bind, Except.bind])

/-- C10: for every parameter dict that passes validation, the total moment of
inertia `I_plate + n_blades·m_c·(R+L)²` is strictly positive (hence nonzero),
so the division computing `dω/dt = net/I_total` in the ODE right-hand side
never divides by zero: the right-hand side is exactly `(ω, net/I_total)` with
this positive `I_total` as divisor. -/
theorem c10_inertia_positive (d : ParamDict) (h : validateParameters d = .ok ()) :
    ∃ I_total, inertiaOfDict d = some I_total ∧ 0 < I_total ∧ I_total ≠ 0 ∧
      ∀ t y net, netTorqueOfDict d t y.2 = some net →
        differentialEquationSystem t y d = some (y.2, net / I_total) := by
  obtain ⟨_, hgeo, hmass, _, _, _, hbl⟩ := validateParameters_ok h
  obtain ⟨I, m, hI, hIpos, hm, hmpos⟩ := checkMass_ok hmass
  obtain ⟨R, L, hR, hRpos, hL, hLpos⟩ := checkGeometric_ok hgeo
  have hn : (1 : ℤ) ≤ d.n_blades.getD 2 := by
    cases hb : d.n_blades with
    | none => simp
    | some n => simpa using (checkBlades_ok hbl n hb).1
  have hnq : (0 : ℚ) < ((d.n_blades.getD 2 : ℤ) : ℚ) := by
    have : (0 : ℤ) < d.n_blades.getD 2 := lt_of_lt_of_le one_pos hn
    exact_mod_cast this
  have hIeq : inertiaOfDict d = some (I + ((d.n_blades.getD 2 : ℤ) : ℚ) * m * (R + L) ^ 2) := by
    simp [inertiaOfDict, hI, hm, hR, hL]
  have hpos : 0 < I + ((d.n_blades.getD 2 : ℤ) : ℚ) * m * (R + L) ^ 2 := by
    have hterm : 0 ≤ ((d.n_blades.getD 2 : ℤ) : ℚ) * m * (R + L) ^ 2 :=
      mul_nonneg (mul_nonneg hnq.le hmpos.le) (sq_nonneg _)
    linarith
  refine ⟨_, hIeq, hpos, ne_of_gt hpos, ?_⟩
  intro t y net hnet
  simp [differentialEquationSystem, hIeq, hnet]

/-- Witness for C10 at the concrete dict `paramsNoBlades`. -/
theorem c10_inertia_positive_witness :
    ∃ I_total, inertiaOfDict paramsNoBlades = some I_total ∧ 0 < I_total ∧ I_total ≠ 0 ∧
      ∀ t y net, netTorqueOfDict paramsNoBlades t y.2 = some net →
        differentialEquationSystem t y paramsNoBlades = some (y.2, net / I_total) :=
  c10_inertia_positive paramsNoBlades (by
    norm_num [validateParameters, checkRequired, checkGeometric, checkMass, checkTorqueParams,
      checkResistance, checkVegetation, checkBlades, checkConsistency, paramsNoBlades,
      Bind.bind, Except.bind])

/-- C1 (counterexample): `simulate_advanced_configuration` does NOT surface an
integration failure as a failed result: with a parameter dict that passes its
validation and a solver outcome with `success = False`, it raises
`RuntimeError("La integración falló: ...")` — an exception propagated to the
caller. -/
theorem c1_counterexample :
    validateParamsMain paramsNoBlades = .ok () ∧
    simulateAdvancedConfiguration paramsNoBlades 10 none none
        (SolveIvp.fail "required step size is less than spacing") =
      .error ("La integración falló: " ++ "required step size is less than spacing") := by
  have hval : validateParamsMain paramsNoBlades = .ok () := by
    norm_num [validateParamsMain, paramsNoBlades, Bind.bind, Except.bind]
  refine ⟨hval, ?_⟩
  unfold simulateAdvancedConfiguration
  rw [hval]
  simp [Bind.bind, Except.bind, paramsNoBlades]

/-- C1 (amended): once a parameter dict passes `validate_parameters` and the
configuration passes `_validate_config`, `SimulationEngine.run_simulation`
always RETURNS a result (never an exception): either `success = True` with
strictly increasing time samples, or `success = False` with all series empty;
a solver failure in particular yields the failed result with the non-empty
message `"Integration failed: " + sol.message`.  The legacy
`simulate_advanced_configuration` (counterexample above) instead raises a
`RuntimeError` on integration failure. -/
theorem c1_amended (d : ParamDict) (cfg : SimulationConfig) (sol : SolveIvp)
    (hd : validateParameters d = .ok ()) (hc : validateConfig cfg = .ok ()) :
    ∃ r, runSimulation d cfg sol = .ok r ∧ RunDichotomy sol r := by
  obtain ⟨hlt, hnp⟩ := validateConfig_ok hc
  unfold runSimulation
  rw [hd, hc]
  simp only [Bind.bind, Except.bind]
  cases sol with
  | fail msg =>
    refine ⟨failedResult ("Integration failed: " ++ msg), rfl, ?_, ?_, ?_⟩
    · intro hs
      simp [failedResult] at hs
    · intro _
      exact ⟨rfl, rfl, rfl, rfl, rfl, rfl⟩
    · intro m hm
      injection hm with h
      subst h
      exact ⟨rfl, rfl, integrationFailed_ne_empty msg⟩
  | solOk θs ωs nfev =>
    dsimp only
    rcases hts : torqueSeries d (linspace cfg.t_start cfg.t_end cfg.n_points) ωs with _ | torq <;>
      rcases hin : inertiaOfDict d with _ | I <;> dsimp only
    case none.none | none.some | some.none =>
      refine ⟨failedResult "KeyError", rfl, ?_, ?_, ?_⟩
      · intro hs
        simp [failedResult] at hs
      · intro _
        exact ⟨rfl, rfl, rfl, rfl, rfl, rfl⟩
      · intro m hm
        simp at hm
    case some.some =>
      refine ⟨_, rfl, ?_, ?_, ?_⟩
      · intro _
        exact linspace_chain hlt (by omega)
      · intro hs
        simp at hs
      · intro m hm
        simp at hm

/-- Witness for C1 (amended): concrete valid dict, default configuration, and
a failing solver outcome. -/
theorem c1_amended_witness :
    ∃ r, runSimulation paramsNoBlades {} (SolveIvp.fail "step failure") = .ok r ∧
      RunDichotomy (SolveIvp.fail "step failure") r :=
  c1_amended paramsNoBlades {} (SolveIvp.fail "step failure")
    (by norm_num [validateParameters, checkRequired, checkGeometric, checkMass,
      checkTorqueParams, checkResistance, checkVegetation, checkBlades, checkConsistency,
      paramsNoBlades, Bind.bind, Except.bind])
    (by norm_num [validateConfig])

/-- C2 (counterexample): with the time-varying strategy `f(t) = t` on the
grid `t = [0, 1]`, `ω = [0, 2]`, the code computes
`E_util = f(0)·(0+2)/2·1 = 0`, while the trapezoidal-rule integral of
`tau_grass(t)·ω` over the grid is `(f(0)·0 + f(1)·2)/2·1 = 1`: the claimed
characterisation of `E_util` fails for non-constant strategies. -/
theorem c2_counterexample :
    (computeMetrics [0, 1] [0, 2] paramsIdStrategy).E_util = 0 ∧
    trapz [0, 1] ((List.zip [(0 : ℚ), 1] [(0 : ℚ), 2]).map fun q => q.1 * q.2) = 1 ∧
    (0 : ℚ) ≠ 1 := by
  refine ⟨?_, ?_, by norm_num⟩
  · norm_num [computeMetrics, paramsIdStrategy, sumLeftSampled]
  · norm_num [trapz, List.zip]

/-- C2 (amended): `compute_metrics` returns `E_total` equal to the
trapezoidal-rule integral of `tau_input·ω` over the sampled grid; `E_util`
equal to the trapezoidal-rule integral of `tau_grass·ω` when NO strategy is
supplied (`tau_grass = k_grass·rho_veg·v_avance·R` constant), but, when a
strategy is supplied, equal to the left-endpoint-sampled sum
`Σ f(t_i)·(ω_i+ω_{i+1})/2·Δt_i` (which differs from the trapezoidal rule for
non-constant `f`); `E_losses` exactly `E_total - E_util`; and
`eta = E_util/E_total` when `E_total > 0`, else `0`. -/
theorem c2_amended (t ω : List ℚ) (p : Params) :
    (computeMetrics t ω p).E_total = trapz t (ω.map fun x => p.tau_input * x)
    ∧ (p.tau_grass_func = none →
        (computeMetrics t ω p).E_util =
          trapz t (ω.map fun x => p.k_grass * p.rho_veg * p.v_avance * p.R * x))
    ∧ (∀ f, p.tau_grass_func = some f →
        (computeMetrics t ω p).E_util = sumLeftSampled f t ω)
    ∧ (computeMetrics t ω p).E_losses =
        (computeMetrics t ω p).E_total - (computeMetrics t ω p).E_util
    ∧ (computeMetrics t ω p).eta =
        (if 0 < (computeMetrics t ω p).E_total
         then (computeMetrics t ω p).E_util / (computeMetrics t ω p).E_total else 0) := by
  refine ⟨?_, ?_, ?_, rfl, rfl⟩
  · show sumMidDt p.tau_input t ω = _
    exact sumMidDt_eq_trapz p.tau_input t ω
  · intro hf
    show (match p.tau_grass_func with
      | some f => sumLeftSampled f t ω
      | none => sumMidDt (p.k_grass * p.rho_veg * p.v_avance * p.R) t ω) = _
    rw [hf]
    exact sumMidDt_eq_trapz _ t ω
  · intro f hf
    show (match p.tau_grass_func with
      | some f => sumLeftSampled f t ω
      | none => sumMidDt (p.k_grass * p.rho_veg * p.v_avance * p.R) t ω) = _
    rw [hf]

/-- Witness for C2 (amended) on the grid `t = [0, 1]`, `ω = [1, 3]` with
constant vegetation torque 1 and `tau_input = 2`: `E_util = 2` and
`E_losses = 4 - 2 = 2`. -/
theorem c2_amended_witness :
    (computeMetrics [0, 1] [1, 3] paramsConstVeg).E_util = 2 ∧
    (computeMetrics [0, 1] [1, 3] paramsConstVeg).E_losses = 2 := by
  have h := c2_amended [0, 1] [1, 3] paramsConstVeg
  have h1 := h.1
  have h2 := h.2.1 rfl
  have h4 := h.2.2.2.1
  constructor
  · rw [h2]
    norm_num [trapz, paramsConstVeg]
  · rw [h4, h1, h2]
    norm_num [trapz, paramsConstVeg]

/-- `np.clip(a, 0, 100)` lies in `[0, 100]`. -/
theorem npClip_mem (a : ℚ) : 0 ≤ npClip a 0 100 ∧ npClip a 0 100 ≤ 100 :=
  ⟨le_min (le_max_right a 0) (by norm_num), min_le_right _ _⟩

/-- C5: each sample of the instantaneous-efficiency series equals
`(power_util/power_total)·100` clipped to `[0, 100]` where
`power_total > 1e-6` and `power_util ≥ 0` (both powers being automatically
finite over exact arithmetic) and `0` elsewhere; hence every sample lies in
`[0, 100]`, and the average of a nonempty series lies in `[0, 100]` too. -/
theorem c5_efficiency_bounds (t ω : List ℚ) (p : Params) :
    (computeMetrics t ω p).efficiency_instantaneous =
      (((computeMetrics t ω p).power_total_series).zip
        ((computeMetrics t ω p).power_util_series)).map (fun q =>
          npClip (if 1/1000000 < q.1 ∧ 0 ≤ q.2 then q.2 / q.1 * 100 else 0) 0 100)
    ∧ (∀ x ∈ (computeMetrics t ω p).efficiency_instantaneous, 0 ≤ x ∧ x ≤ 100)
    ∧ ((computeMetrics t ω p).efficiency_instantaneous ≠ [] →
        0 ≤ (computeMetrics t ω p).efficiency_average ∧
        (computeMetrics t ω p).efficiency_average ≤ 100) := by
  have hbounds : ∀ x ∈ (computeMetrics t ω p).efficiency_instantaneous, 0 ≤ x ∧ x ≤ 100 := by
    intro x hx
    simp only [computeMetrics] at hx
    obtain ⟨q, _, rfl⟩ := List.mem_map.mp hx
    exact npClip_mem _
  exact ⟨rfl, hbounds, fun hne => npMean_mem_of_bounds hne hbounds⟩

/-- Witness for C5 on a concrete trajectory: the average instantaneous
efficiency lies in `[0, 100]`. -/
theorem c5_efficiency_bounds_witness :
    0 ≤ (computeMetrics [0, 1] [1, 3] paramsConstVeg).efficiency_average ∧
    (computeMetrics [0, 1] [1, 3] paramsConstVeg).efficiency_average ≤ 100 :=
  (c5_efficiency_bounds [0, 1] [1, 3] paramsConstVeg).2.2
    (by simp [computeMetrics, paramsConstVeg])
